import Mathlib

/-
Verification of the kairoscope policy evaluator, key manager and provenance
modules (src/kairoscope/policy.py, key_manager.py, provenance.py,
tpm_key_manager.py) via a shallow embedding in Lean 4.

Modelling conventions:
* A row of the Event Store (`get_all_events`) is a record of optional string
  fields; `dict.get(k)` returning `None` is `Option.none`, and Python
  truthiness of an optional string (`if artifact_hash and ...`) is
  `truthyStr` below (absent or empty strings are falsy).
* Cryptographic signature verification (`provenance.verify_signature`,
  which decodes the stored hex string with `bytes.fromhex` and checks it
  against the UTF-8 encoded artifact hash under a public key) is modelled
  as an abstract boolean function `verify : String → String → K → Bool`
  taking the stored signature hex, the stored artifact hash string, and a
  public key of abstract type `K`.  `get_public_key()` — the single key
  loaded from `kairoscope.pub` / the local keypair — is modelled as one
  value `public_key : K` handed to each checker.
* `get_all_events(db_path)` is modelled by passing the ordered event list
  directly.
* SHA-256 is modelled as an abstract function `List Nat → List Nat` on
  byte strings; hex encoding of bytes (Python `bytes.hex()`) is embedded
  concretely.
-/

namespace Kairoscope

/-- One row of the events table, as returned by `db.get_all_events`:
the JSON event dictionary with its optional string fields.  `by_` models
the `"by"` field (the signer fingerprint; `by` is a Lean keyword).
Non-string JSON values for these fields are outside the model; the
`isinstance(attestor_id, str)` guard in `check_threshold_rule` is
therefore vacuously true here. -/
structure Event where
  action : Option String := none
  by_ : Option String := none
  artifact_hash : Option String := none
  artifact_signature : Option String := none
deriving DecidableEq, Repr

/-- Python truthiness of an optional string: `None` and `""` are falsy. -/
def truthyStr : Option String → Bool
  | none => false
  | some s => !s.isEmpty

/-- An existential rule record: `rule.get("min_witnesses", 1)` reads an
optional integer field (policy.py line 51). -/
structure ExistentialRule where
  name : Option String := none
  min_witnesses : Option Int := none
deriving DecidableEq, Repr

/-- A universal rule record: `rule.get("required_validators", [])`
(policy.py line 80). -/
structure UniversalRule where
  name : Option String := none
  required_validators : Option (List String) := none
deriving DecidableEq, Repr

/-- A threshold rule record (policy.py lines 117-119): `k` and `n` are
optional integers, `attestors` an optional list whose entries may be
YAML `null` (`Option.none` here) or strings. -/
structure ThresholdRule where
  name : Option String := none
  k : Option Int := none
  n : Option Int := none
  attestors : Option (List (Option String)) := none
deriving DecidableEq, Repr

/-- The condition under which a single event increments
`artifact_signatures_count[artifact_hash]` in `check_existential_rule`
(policy.py lines 57-67): a `sign` event with truthy stored hash and
signature whose signature verifies, under `public_key`, against its own
stored hash. -/
def eventCountsAsWitness {K : Type} (verify : String → String → K → Bool)
    (public_key : K) (e : Event) : Bool :=
  e.action == some "sign" &&
  truthyStr e.artifact_hash &&
  truthyStr e.artifact_signature &&
  verify (e.artifact_signature.getD "") (e.artifact_hash.getD "") public_key

/-- The value of `artifact_signatures_count[h]` after the scan loop of
`check_existential_rule` (policy.py lines 55-67): the `defaultdict(int)`
entry at `h` equals the number of events that pass the guard and whose
stored hash is `h` (0 when no such event exists). -/
def artifact_signatures_count {K : Type} (verify : String → String → K → Bool)
    (public_key : K) (events : List Event) (h : String) : Nat :=
  (events.filter (fun e =>
    eventCountsAsWitness verify public_key e && e.artifact_hash == some h)).length

/-- The final loop of `check_existential_rule` (policy.py lines 69-72):
return `False` at the first target hash whose count is below
`min_witnesses`, else `True`. -/
def existentialLoop (min_witnesses : Int) (count : String → Nat) :
    List String → Bool
  | [] => true
  | h :: hs =>
    if (count h : Int) < min_witnesses then false
    else existentialLoop min_witnesses count hs

/-- Embedding of `check_existential_rule` (policy.py lines 46-72). -/
def check_existential_rule {K : Type} (verify : String → String → K → Bool)
    (public_key : K) (artifact_hashes : List String) (rule : ExistentialRule)
    (events : List Event) : Bool :=
  let min_witnesses := rule.min_witnesses.getD 1
  existentialLoop min_witnesses
    (artifact_signatures_count verify public_key events) artifact_hashes

/-- Membership of `h` in the `signed_artifacts` set built by
`check_universal_rule` (policy.py lines 84-96): some event passes the
verification guard with stored hash `h`. -/
def signed_artifacts_mem {K : Type} (verify : String → String → K → Bool)
    (public_key : K) (events : List Event) (h : String) : Bool :=
  events.any (fun e =>
    eventCountsAsWitness verify public_key e && e.artifact_hash == some h)

/-- The final loop of `check_universal_rule` (policy.py lines 98-110):
for each target hash, deny when the `signature` validator is required and
the hash is unsigned, then deny unconditionally when the `ledger`
validator is required (no refutation mechanism is implemented). -/
def universalLoop (required_validators : List String)
    (signed : String → Bool) : List String → Bool
  | [] => true
  | h :: hs =>
    if required_validators.contains "signature" && !(signed h) then false
    else if required_validators.contains "ledger" then false
    else universalLoop required_validators signed hs

/-- Embedding of `check_universal_rule` (policy.py lines 75-110). -/
def check_universal_rule {K : Type} (verify : String → String → K → Bool)
    (public_key : K) (artifact_hashes : List String) (rule : UniversalRule)
    (events : List Event) : Bool :=
  let required_validators := rule.required_validators.getD []
  universalLoop required_validators
    (signed_artifacts_mem verify public_key events) artifact_hashes

/-- The guard of the scan loop of `check_threshold_rule` (policy.py lines
132-150) for attestor allowlist `attestors`: a `sign` event with truthy
stored hash, truthy string `by` field that occurs in the allowlist, and
truthy stored signature that verifies under `public_key` against the
stored hash. -/
def eventCountsAsAttestation {K : Type} (verify : String → String → K → Bool)
    (public_key : K) (attestors : List (Option String)) (e : Event) : Bool :=
  e.action == some "sign" &&
  truthyStr e.artifact_hash &&
  truthyStr e.by_ &&
  attestors.contains e.by_ &&
  truthyStr e.artifact_signature &&
  verify (e.artifact_signature.getD "") (e.artifact_hash.getD "") public_key

/-- The value of `artifact_attestations_count[h][a]` after the scan loop
of `check_threshold_rule` (policy.py lines 128-150): the nested
`defaultdict` entry equals the number of guarded events with stored hash
`h` and `by` field `a`. -/
def artifact_attestations_count {K : Type} (verify : String → String → K → Bool)
    (public_key : K) (attestors : List (Option String)) (events : List Event)
    (h a : String) : Nat :=
  (events.filter (fun e =>
    eventCountsAsAttestation verify public_key attestors e &&
    e.artifact_hash == some h && e.by_ == some a)).length

/-- The accumulation `valid_attestations_for_artifact` of
`check_threshold_rule` (policy.py lines 153-161): iterate over the raw
allowlist, skip `None` entries, and add 1 for each entry whose per-hash
attestation count is positive. -/
def valid_attestations_for_artifact (count : String → String → Nat)
    (attestors : List (Option String)) (h : String) : Nat :=
  attestors.foldl (fun acc a =>
    match a with
    | none => acc
    | some s => if count h s > 0 then acc + 1 else acc) 0

/-- The final loop of `check_threshold_rule` (policy.py lines 152-165):
deny at the first target hash with fewer than `k` valid attestations. -/
def thresholdLoop (k : Int) (attestors : List (Option String))
    (count : String → String → Nat) : List String → Bool
  | [] => true
  | h :: hs =>
    if (valid_attestations_for_artifact count attestors h : Int) < k then false
    else thresholdLoop k attestors count hs

/-- Embedding of `check_threshold_rule` (policy.py lines 113-165): a rule
with `k` or `n` absent, or with falsy (absent or empty) `attestors`, is
malformed and denies immediately; `n` is never used afterwards. -/
def check_threshold_rule {K : Type} (verify : String → String → K → Bool)
    (public_key : K) (artifact_hashes : List String) (rule : ThresholdRule)
    (events : List Event) : Bool :=
  let attestors := rule.attestors.getD []
  match rule.k, rule.n with
  | some k, some _ =>
    if attestors.isEmpty then false
    else
      thresholdLoop k attestors
        (artifact_attestations_count verify public_key attestors events)
        artifact_hashes
  | _, _ => false

/-- A parsed policy document as consumed by `can_export`
(`policy_config.get("..._rules", [])`; an absent list is the empty
list). -/
structure PolicyConfig where
  governance_model : Option String := none
  controls : List String := []
  existential_rules : List ExistentialRule := []
  universal_rules : List UniversalRule := []
  threshold_rules : List ThresholdRule := []
deriving DecidableEq, Repr

/-- The literal default policy of `load_policy_config` (policy.py lines
22-28), returned when no `policy.yaml` exists. -/
def default_policy : PolicyConfig :=
  { governance_model := some "Custom",
    controls := ["Default control: Ensure all artifacts are signed before export"],
    existential_rules :=
      [{ name := some "default_export_policy", min_witnesses := some 1 }],
    universal_rules := [],
    threshold_rules := [] }

/-- Embedding of `load_policy_config` (policy.py lines 17-43).  File I/O,
YAML parsing and `jsonschema` validation are modelled by passing the
already-parsed policy document (`none` when `policy.yaml` does not
exist); validation either succeeds, returning the document unchanged, or
raises, in which case evaluation never happens.  The ontology schema file
lives outside the policy module and validation of the fixed default
policy is exercised successfully by the repository's test suite. -/
def load_policy_config (policy_file : Option PolicyConfig) : PolicyConfig :=
  match policy_file with
  | none => default_policy
  | some policy_config => policy_config

/-- Embedding of `can_export` (policy.py lines 168-190): every rule of
every category must pass. -/
def can_export {K : Type} (verify : String → String → K → Bool)
    (public_key : K) (artifact_hashes : List String)
    (policy_file : Option PolicyConfig) (events : List Event) : Bool :=
  let policy_config := load_policy_config policy_file
  policy_config.existential_rules.all
    (fun rule => check_existential_rule verify public_key artifact_hashes rule events) &&
  policy_config.universal_rules.all
    (fun rule => check_universal_rule verify public_key artifact_hashes rule events) &&
  policy_config.threshold_rules.all
    (fun rule => check_threshold_rule verify public_key artifact_hashes rule events)

/-! Spec-side checkers with per-signer key resolution.  The spec reads
"re-verify the stored signature against the stored artifact hash using
the signer's public key (resolved by fingerprint)"; the source has no
such resolution.  These definitions follow the spec's words, to be
compared with the embeddings above. -/

/-- Modelled from the spec: the witness guard of the existential scan as
the spec describes it, with the public key resolved from the event's
`by` fingerprint through a resolver `resolve` instead of the single
default key.  The source (policy.py lines 52, 63-65) has no
fingerprint-to-key resolution. -/
def eventCountsAsWitnessResolved {K : Type} (verify : String → String → K → Bool)
    (resolve : Option String → K) (e : Event) : Bool :=
  e.action == some "sign" &&
  truthyStr e.artifact_hash &&
  truthyStr e.artifact_signature &&
  verify (e.artifact_signature.getD "") (e.artifact_hash.getD "") (resolve e.by_)

/-- Modelled from the spec: per-hash witness count under per-signer key
resolution. -/
def artifact_signatures_count_resolved {K : Type}
    (verify : String → String → K → Bool) (resolve : Option String → K)
    (events : List Event) (h : String) : Nat :=
  (events.filter (fun e =>
    eventCountsAsWitnessResolved verify resolve e && e.artifact_hash == some h)).length

/-- Modelled from the spec: `check_existential_rule` with per-signer key
resolution. -/
def check_existential_rule_resolved {K : Type}
    (verify : String → String → K → Bool) (resolve : Option String → K)
    (artifact_hashes : List String) (rule : ExistentialRule)
    (events : List Event) : Bool :=
  let min_witnesses := rule.min_witnesses.getD 1
  existentialLoop min_witnesses
    (artifact_signatures_count_resolved verify resolve events) artifact_hashes

/-- Modelled from the spec: `signed_artifacts` membership with per-signer
key resolution. -/
def signed_artifacts_mem_resolved {K : Type}
    (verify : String → String → K → Bool) (resolve : Option String → K)
    (events : List Event) (h : String) : Bool :=
  events.any (fun e =>
    eventCountsAsWitnessResolved verify resolve e && e.artifact_hash == some h)

/-- Modelled from the spec: `check_universal_rule` with per-signer key
resolution. -/
def check_universal_rule_resolved {K : Type}
    (verify : String → String → K → Bool) (resolve : Option String → K)
    (artifact_hashes : List String) (rule : UniversalRule)
    (events : List Event) : Bool :=
  let required_validators := rule.required_validators.getD []
  universalLoop required_validators
    (signed_artifacts_mem_resolved verify resolve events) artifact_hashes

/-- Modelled from the spec: the attestation guard with per-signer key
resolution. -/
def eventCountsAsAttestationResolved {K : Type}
    (verify : String → String → K → Bool) (resolve : Option String → K)
    (attestors : List (Option String)) (e : Event) : Bool :=
  e.action == some "sign" &&
  truthyStr e.artifact_hash &&
  truthyStr e.by_ &&
  attestors.contains e.by_ &&
  truthyStr e.artifact_signature &&
  verify (e.artifact_signature.getD "") (e.artifact_hash.getD "") (resolve e.by_)

/-- Modelled from the spec: per-hash, per-attestor attestation count with
per-signer key resolution. -/
def artifact_attestations_count_resolved {K : Type}
    (verify : String → String → K → Bool) (resolve : Option String → K)
    (attestors : List (Option String)) (events : List Event)
    (h a : String) : Nat :=
  (events.filter (fun e =>
    eventCountsAsAttestationResolved verify resolve attestors e &&
    e.artifact_hash == some h && e.by_ == some a)).length

/-- Modelled from the spec: `check_threshold_rule` with per-signer key
resolution. -/
def check_threshold_rule_resolved {K : Type}
    (verify : String → String → K → Bool) (resolve : Option String → K)
    (artifact_hashes : List String) (rule : ThresholdRule)
    (events : List Event) : Bool :=
  let attestors := rule.attestors.getD []
  match rule.k, rule.n with
  | some k, some _ =>
    if attestors.isEmpty then false
    else
      thresholdLoop k attestors
        (artifact_attestations_count_resolved verify resolve attestors events)
        artifact_hashes
  | _, _ => false

/-- Modelled from the spec: the number of distinct attestors from the
`attestors` allowlist with at least one verified signature on `h` ("count
each attestor once regardless of repeat signings").  `None` allowlist
entries carry no attestor and are dropped; duplicates are counted
once. -/
def distinct_attestor_count {K : Type} (verify : String → String → K → Bool)
    (public_key : K) (attestors : List (Option String)) (events : List Event)
    (h : String) : Nat :=
  ((attestors.filterMap id).dedup.filter
    (fun a => decide
      (0 < artifact_attestations_count verify public_key attestors events h a))).length

/-! Key fingerprints and hex encoding (provenance.py lines 72-81,
key_manager.py lines 143-151, tpm_key_manager.py lines 47-56). -/

/-- One lowercase hexadecimal digit, as produced by Python's
`bytes.hex()`. -/
def hexDigit (n : Nat) : Char :=
  "0123456789abcdef".data.getD n '0'

/-- Two lowercase hexadecimal digits for one byte. -/
def byteToHex (b : Nat) : List Char :=
  [hexDigit (b % 256 / 16), hexDigit (b % 16)]

/-- Embedding of Python `bytes.hex()`: lowercase hexadecimal encoding of a
byte string. -/
def bytesHex (bs : List Nat) : String :=
  ⟨bs.flatMap byteToHex⟩

/-- Embedding of `provenance.get_public_key_fingerprint` (provenance.py
lines 72-81) as a function of the DER-encoded `SubjectPublicKeyInfo`
bytes of the loaded public key, with SHA-256 abstract:
`f"sha256:{SHA256(der).hex()}"`. -/
def get_public_key_fingerprint (sha256 : List Nat → List Nat)
    (der_bytes : List Nat) : String :=
  "sha256:" ++ bytesHex (sha256 der_bytes)

namespace FileKeyBackend

/-- Embedding of `FileKeyBackend._calculate_fingerprint_from_public_key`
(key_manager.py lines 143-151) as a function of the public key's DER
`SubjectPublicKeyInfo` bytes. -/
def calculate_fingerprint_from_public_key (sha256 : List Nat → List Nat)
    (der_bytes : List Nat) : String :=
  "sha256:" ++ bytesHex (sha256 der_bytes)

end FileKeyBackend

namespace TpmKeyBackend

/-- Embedding of `TpmKeyBackend._calculate_fingerprint_from_public_key`
(tpm_key_manager.py lines 47-56): the PEM input is loaded and re-encoded
as DER `SubjectPublicKeyInfo` bytes, so the function is modelled on those
bytes directly. -/
def calculate_fingerprint_from_public_key (sha256 : List Nat → List Nat)
    (der_bytes : List Nat) : String :=
  "sha256:" ++ bytesHex (sha256 der_bytes)

end TpmKeyBackend

/-! State model of `FileKeyBackend` (key_manager.py lines 87-258).  A
private key is identified by the DER `SubjectPublicKeyInfo` bytes of its
public half; key generation randomness is modelled by passing the freshly
generated key as an argument. -/

/-- A private key, identified by the DER `SubjectPublicKeyInfo` bytes of
its public key. -/
structure PrivateKey where
  pubDer : List Nat
deriving DecidableEq, Repr

/-- The mutable state of one `FileKeyBackend` instance together with the
two key files in its `key_dir`: `kairoscope.key` and `kairoscope.pub` on
disk, and the cached `_private_key`, `_public_key`, `_key_id`
attributes. -/
structure FileBackendState where
  keyFileOnDisk : Option PrivateKey := none
  pubFileOnDisk : Option (List Nat) := none
  mem_private_key : Option PrivateKey := none
  mem_public_key : Option (List Nat) := none
  mem_key_id : Option String := none
deriving DecidableEq, Repr

namespace FileKeyBackend

/-- The state of a freshly constructed `FileKeyBackend` over an empty
`key_dir` (`__init__`, key_manager.py lines 92-96). -/
def initialState : FileBackendState := {}

/-- Embedding of `FileKeyBackend._load_or_generate_keypair`
(key_manager.py lines 104-141): return the cached key if present;
otherwise load it from `kairoscope.key`, or generate a fresh one
(modelled by the `fresh` argument) and write both PEM files; in either of
the latter two cases set `_key_id` to the public key's fingerprint. -/
def load_or_generate_keypair (sha256 : List Nat → List Nat)
    (fresh : PrivateKey) (s : FileBackendState) :
    PrivateKey × FileBackendState :=
  match s.mem_private_key with
  | some private_key => (private_key, s)
  | none =>
    match s.keyFileOnDisk with
    | some private_key =>
      (private_key,
       { s with
          mem_private_key := some private_key,
          mem_key_id := some
            (calculate_fingerprint_from_public_key sha256 private_key.pubDer) })
    | none =>
      (fresh,
       { s with
          keyFileOnDisk := some fresh,
          pubFileOnDisk := some fresh.pubDer,
          mem_private_key := some fresh,
          mem_key_id := some
            (calculate_fingerprint_from_public_key sha256 fresh.pubDer) })

/-- Embedding of `FileKeyBackend.generate_key_pair` (key_manager.py lines
153-161): ensure the single managed keypair exists and return its
`key_id` (the public key PEM return value is omitted from the model).
The `RuntimeError` branch for `_key_id is None` cannot fire, since
`load_or_generate_keypair` always sets `_key_id`. -/
def generate_key_pair (sha256 : List Nat → List Nat) (fresh : PrivateKey)
    (s : FileBackendState) : String × FileBackendState :=
  let ls := load_or_generate_keypair sha256 fresh s
  (ls.2.mem_key_id.getD "", ls.2)

/-- Embedding of `FileKeyBackend.delete_key` (key_manager.py lines
244-258): raise `ValueError` unless `key_id` equals the cached
`_key_id`; otherwise unlink both key files and clear all cached
attributes.  A raised `ValueError` is `Except.error` with the formatted
message. -/
def delete_key (s : FileBackendState) (key_id : String) :
    Except String FileBackendState :=
  if s.mem_key_id ≠ some key_id then
    Except.error
      ("Key with ID " ++ key_id ++ " not managed by this FileKeyBackend instance.")
  else
    Except.ok
      { keyFileOnDisk := none, pubFileOnDisk := none,
        mem_private_key := none, mem_public_key := none, mem_key_id := none }

end FileKeyBackend

/-! Deterministic assertion serialization (provenance.py lines 119-133):
`json.dumps(assertion, sort_keys=True, separators=(",", ":"))` over a
dictionary whose values are all strings. -/

/-- JSON escaping of one character as performed by Python `json.dumps`
with its default `ensure_ascii=True`: the two mandatory escapes, the
short escapes for the common control characters, `\uXXXX` for the other
control characters and for non-ASCII code points of the Basic
Multilingual Plane (code points above `0xFFFF` become surrogate pairs),
and every other ASCII character unchanged. -/
def jsonEscapeChar (c : Char) : List Char :=
  if c = '"' then ['\\', '"']
  else if c = '\\' then ['\\', '\\']
  else if c = '\n' then ['\\', 'n']
  else if c = '\t' then ['\\', 't']
  else if c = '\r' then ['\\', 'r']
  else if c = '\x08' then ['\\', 'b']
  else if c = '\x0c' then ['\\', 'f']
  else if c.toNat < 0x20 ∨ 0x7e < c.toNat then
    if c.toNat ≤ 0xffff then
      '\\' :: 'u' :: (byteToHex (c.toNat / 256) ++ byteToHex (c.toNat % 256))
    else
      let v := c.toNat - 0x10000
      let hi := 0xd800 + v / 0x400
      let lo := 0xdc00 + v % 0x400
      '\\' :: 'u' :: (byteToHex (hi / 256) ++ byteToHex (hi % 256)) ++
        '\\' :: 'u' :: (byteToHex (lo / 256) ++ byteToHex (lo % 256))
  else [c]

/-- A JSON string literal for `s`: quotes around the escaped
characters. -/
def jsonQuote (s : String) : String :=
  "\"" ++ ⟨s.data.flatMap jsonEscapeChar⟩ ++ "\""

/-- Lexicographic (code point) comparison of character lists: the order
Python uses on `str` when `json.dumps(..., sort_keys=True)` sorts
dictionary keys. -/
def charLeb : List Char → List Char → Bool
  | [], _ => true
  | _ :: _, [] => false
  | c :: cs, d :: ds => if c = d then charLeb cs ds else decide (c < d)

/-- Ordering of dictionary items by key, as used by
`json.dumps(..., sort_keys=True)` (Python sorts the items by their key
strings, comparing code points lexicographically). -/
def keyLE (a b : String × String) : Prop :=
  charLeb a.1.data b.1.data = true

instance : DecidableRel keyLE := fun a b =>
  inferInstanceAs (Decidable (charLeb a.1.data b.1.data = true))

instance : IsTotal (String × String) keyLE :=
  ⟨fun a b => by
    show charLeb a.1.data b.1.data = true ∨ charLeb b.1.data a.1.data = true
    generalize a.1.data = x
    generalize b.1.data = y
    induction x generalizing y with
    | nil => exact Or.inl rfl
    | cons c cs ih =>
      cases y with
      | nil => exact Or.inr rfl
      | cons d ds =>
        by_cases hcd : c = d
        · subst hcd
          simpa [charLeb] using ih ds
        · rcases lt_trichotomy c d with hlt | heq | hgt
          · exact Or.inl (by simp [charLeb, hcd, hlt])
          · exact absurd heq hcd
          · exact Or.inr (by simp [charLeb, Ne.symm hcd, hgt])⟩

instance : IsTrans (String × String) keyLE :=
  ⟨fun a b c h₁ h₂ => by
    show charLeb a.1.data c.1.data = true
    have key : ∀ (x y z : List Char), charLeb x y = true →
        charLeb y z = true → charLeb x z = true := by
      intro x
      induction x with
      | nil => intro y z _ _; rfl
      | cons cx xs ih =>
        intro y z hxy hyz
        cases y with
        | nil => simp [charLeb] at hxy
        | cons cy ys =>
          cases z with
          | nil => simp [charLeb] at hyz
          | cons cz zs =>
            by_cases h1 : cx = cy <;> by_cases h2 : cy = cz
            · subst h1; subst h2
              simp only [charLeb, if_pos rfl] at hxy hyz ⊢
              exact ih ys zs hxy hyz
            · subst h1
              simp only [charLeb, if_pos rfl] at hxy
              simp only [charLeb, if_neg h2, decide_eq_true_eq] at hyz
              simp [charLeb, if_neg (show cx ≠ cz from h2), hyz]
            · subst h2
              simp only [charLeb, if_neg h1, decide_eq_true_eq] at hxy
              simp [charLeb, if_neg h1, hxy]
            · simp only [charLeb, if_neg h1, decide_eq_true_eq] at hxy
              simp only [charLeb, if_neg h2, decide_eq_true_eq] at hyz
              have hxz : cx < cz := lt_trans hxy hyz
              simp [charLeb, if_neg (ne_of_lt hxz), hxz]
    exact key a.1.data b.1.data c.1.data h₁ h₂⟩

/-- Embedding of
`json.dumps(dict_of_strings, sort_keys=True, separators=(",", ":"))`:
sort the items by key and join `"key":"value"` pairs with `","`, no
whitespace, inside braces. -/
def dumpsSorted (items : List (String × String)) : String :=
  "\x7b" ++
    String.intercalate ","
      ((items.insertionSort keyLE).map
        (fun kv => jsonQuote kv.1 ++ ":" ++ jsonQuote kv.2)) ++
  "\x7d"

/-- Embedding of `create_assertion` (provenance.py lines 119-133): the
algorithm label depends on the loaded keypair's type (modelled by
`is_ec_keypair`), and the signer field is the fingerprint of the loaded
public key (passed in, as `get_public_key_fingerprint` is a function of
the key material on disk). -/
def create_assertion (is_ec_keypair : Bool) (artifact_hash : String)
    (signature_hex : String) (signer_fingerprint : String) : String :=
  let alg := if is_ec_keypair then "ES384" else "PS256"
  dumpsSorted
    [("alg", alg), ("hash", artifact_hash), ("signature", signature_hex),
     ("signer", signer_fingerprint)]

/-! Helper lemmas. -/

/-- Denotation of the final loop of `check_existential_rule`: it returns
`true` iff every target hash reaches the `min_witnesses` bound. -/
lemma existentialLoop_eq_true_iff (m : Int) (count : String → Nat) :
    ∀ hs : List String,
      existentialLoop m count hs = true ↔ ∀ h ∈ hs, m ≤ (count h : Int) := by
  intro hs
  induction hs with
  | nil => simp [existentialLoop]
  | cons h hs ih =>
    by_cases hc : (count h : Int) < m
    · simp [existentialLoop, hc, not_le.mpr hc]
    · simp [existentialLoop, hc, ih, not_lt.mp hc]

/-- Denotation of the final loop of `check_threshold_rule`: it returns
`true` iff every target hash reaches `k` valid attestations. -/
lemma thresholdLoop_eq_true_iff (k : Int) (attestors : List (Option String))
    (count : String → String → Nat) :
    ∀ hs : List String,
      thresholdLoop k attestors count hs = true ↔
        ∀ h ∈ hs,
          k ≤ (valid_attestations_for_artifact count attestors h : Int) := by
  intro hs
  induction hs with
  | nil => simp [thresholdLoop]
  | cons h hs ih =>
    by_cases hc : (valid_attestations_for_artifact count attestors h : Int) < k
    · simp [thresholdLoop, hc, not_le.mpr hc]
    · simp [thresholdLoop, hc, ih, not_lt.mp hc]

/-- The attestor-counting fold equals a count over the de-optioned
allowlist. -/
lemma valid_attestations_eq_countP (count : String → String → Nat)
    (h : String) :
    ∀ attestors : List (Option String),
      valid_attestations_for_artifact count attestors h =
        (attestors.filterMap id).countP (fun a => decide (0 < count h a)) := by
  have key : ∀ (l : List (Option String)) (acc : Nat),
      l.foldl (fun acc a =>
        match a with
        | none => acc
        | some s => if count h s > 0 then acc + 1 else acc) acc =
      acc + (l.filterMap id).countP (fun a => decide (0 < count h a)) := by
    intro l
    induction l with
    | nil => simp
    | cons a l ih =>
      intro acc
      match a with
      | none => simpa using ih acc
      | some s =>
        simp only [List.foldl_cons, List.filterMap_cons_some, id_eq,
          List.countP_cons]
        rw [ih]
        by_cases hs : 0 < count h s <;> simp [hs] <;> omega
  intro attestors
  simpa using key attestors 0

/-- A single event at which the verification guard of the existential
scan is `false` contributes nothing to any witness count. -/
lemma signatures_count_erase {K : Type} (verify : String → String → K → Bool)
    (public_key : K) (e : Event)
    (hv : eventCountsAsWitness verify public_key e = false)
    (l₁ l₂ : List Event) (h : String) :
    artifact_signatures_count verify public_key (l₁ ++ e :: l₂) h =
      artifact_signatures_count verify public_key (l₁ ++ l₂) h := by
  simp [artifact_signatures_count, List.filter_append, List.filter_cons, hv]

/-- A single event at which the verification guard is `false` is absent
from the signed-artifacts set. -/
lemma signed_mem_erase {K : Type} (verify : String → String → K → Bool)
    (public_key : K) (e : Event)
    (hv : eventCountsAsWitness verify public_key e = false)
    (l₁ l₂ : List Event) (h : String) :
    signed_artifacts_mem verify public_key (l₁ ++ e :: l₂) h =
      signed_artifacts_mem verify public_key (l₁ ++ l₂) h := by
  simp [signed_artifacts_mem, List.any_append, List.any_cons, hv]

/-- A single event at which the attestation guard is `false` contributes
nothing to any attestation count. -/
lemma attestations_count_erase {K : Type} (verify : String → String → K → Bool)
    (public_key : K) (attestors : List (Option String)) (e : Event)
    (hv : eventCountsAsAttestation verify public_key attestors e = false)
    (l₁ l₂ : List Event) (h a : String) :
    artifact_attestations_count verify public_key attestors (l₁ ++ e :: l₂) h a =
      artifact_attestations_count verify public_key attestors (l₁ ++ l₂) h a := by
  simp [artifact_attestations_count, List.filter_append, List.filter_cons, hv]

/-- Denotation of the final loop of `check_existential_rule` as a
`List.all`. -/
lemma existentialLoop_eq_all (m : Int) (count : String → Nat) :
    ∀ hs : List String,
      existentialLoop m count hs =
        hs.all (fun h => decide (m ≤ (count h : Int))) := by
  intro hs
  induction hs with
  | nil => rfl
  | cons h hs ih =>
    by_cases hc : (count h : Int) < m
    · simp [existentialLoop, hc, not_le.mpr hc]
    · simp [existentialLoop, hc, ih, not_lt.mp hc]

/-- Denotation of the final loop of `check_threshold_rule` as a
`List.all`. -/
lemma thresholdLoop_eq_all (k : Int) (attestors : List (Option String))
    (count : String → String → Nat) :
    ∀ hs : List String,
      thresholdLoop k attestors count hs =
        hs.all (fun h =>
          decide (k ≤ (valid_attestations_for_artifact count attestors h : Int))) := by
  intro hs
  induction hs with
  | nil => rfl
  | cons h hs ih =>
    by_cases hc : (valid_attestations_for_artifact count attestors h : Int) < k
    · simp [thresholdLoop, hc, not_le.mpr hc]
    · simp [thresholdLoop, hc, ih, not_lt.mp hc]

/-- A malformed threshold rule (absent `k` or `n`, or empty or absent
allowlist) denies unconditionally. -/
lemma check_threshold_rule_malformed {K : Type}
    (verify : String → String → K → Bool) (public_key : K)
    (artifact_hashes : List String) (rule : ThresholdRule)
    (events : List Event)
    (hm : rule.k = none ∨ rule.n = none ∨ rule.attestors.getD [] = []) :
    check_threshold_rule verify public_key artifact_hashes rule events = false := by
  unfold check_threshold_rule
  rcases hk : rule.k with _ | k
  · rfl
  · rcases hn : rule.n with _ | n
    · rfl
    · rcases hm with hm | hm | hm
      · exact absurd hk (hm ▸ by simp)
      · exact absurd hn (hm ▸ by simp)
      · simp [hm]

/-- Antisymmetry of the lexicographic comparison on character lists. -/
lemma charLeb_antisymm :
    ∀ x y : List Char, charLeb x y = true → charLeb y x = true → x = y := by
  intro x
  induction x with
  | nil =>
    intro y _ hyx
    cases y with
    | nil => rfl
    | cons d ds => simp [charLeb] at hyx
  | cons c cs ih =>
    intro y hxy hyx
    cases y with
    | nil => simp [charLeb] at hxy
    | cons d ds =>
      by_cases hcd : c = d
      · subst hcd
        simp only [charLeb, if_pos rfl] at hxy hyx
        rw [ih ds hxy hyx]
      · simp only [charLeb, if_neg hcd, decide_eq_true_eq] at hxy
        simp only [charLeb, if_neg (Ne.symm hcd), decide_eq_true_eq] at hyx
        exact absurd (lt_trans hxy hyx) (lt_irrefl c)

/-- Two key-sorted association lists with the same items and duplicate-free
keys are equal. -/
lemma sorted_keyLE_eq_of_perm :
    ∀ l₁ l₂ : List (String × String), l₁.Perm l₂ → l₁.Sorted keyLE →
      l₂.Sorted keyLE → (l₁.map Prod.fst).Nodup → l₁ = l₂ := by
  intro l₁
  induction l₁ with
  | nil =>
    intro l₂ hp _ _ _
    exact (hp.symm.eq_nil).symm
  | cons a t ih =>
    intro l₂ hp hs₁ hs₂ hnd
    cases l₂ with
    | nil => exact absurd hp.eq_nil (by simp)
    | cons b u =>
      have hab : a = b := by
        rcases List.mem_cons.mp (hp.mem_iff.mp (List.mem_cons_self a t)) with h1 | h1
        · exact h1
        · rcases List.mem_cons.mp (hp.symm.mem_iff.mp (List.mem_cons_self b u)) with h2 | h2
          · exact h2.symm
          · have hba : keyLE b a := List.rel_of_sorted_cons hs₂ a h1
            have hab' : keyLE a b := List.rel_of_sorted_cons hs₁ b h2
            have hkey : a.1 = b.1 :=
              String.toList_inj.mp (charLeb_antisymm a.1.data b.1.data hab' hba)
            have hnotin : a.1 ∉ t.map Prod.fst :=
              (List.nodup_cons.mp (by simpa using hnd)).1
            have hbmem : b.1 ∈ t.map Prod.fst :=
              List.mem_map_of_mem Prod.fst h2
            rw [← hkey] at hbmem
            exact absurd hbmem hnotin
      subst hab
      have ht : t.Perm u := hp.cons_inv
      have htail : t = u :=
        ih u ht hs₁.of_cons hs₂.of_cons
          (List.nodup_cons.mp (by simpa using hnd)).2
      rw [htail]

/-- Serialization with sorted keys is invariant under reordering of the
items, provided the keys are duplicate-free. -/
lemma dumpsSorted_perm_eq (l₁ l₂ : List (String × String)) (hp : l₁.Perm l₂)
    (hnd : (l₁.map Prod.fst).Nodup) : dumpsSorted l₁ = dumpsSorted l₂ := by
  unfold dumpsSorted
  have hsorteq : l₁.insertionSort keyLE = l₂.insertionSort keyLE := by
    apply sorted_keyLE_eq_of_perm
    · exact (List.perm_insertionSort keyLE l₁).trans
        (hp.trans (List.perm_insertionSort keyLE l₂).symm)
    · exact List.sorted_insertionSort keyLE l₁
    · exact List.sorted_insertionSort keyLE l₂
    · exact (((List.perm_insertionSort keyLE l₁).map Prod.fst).nodup_iff).mpr hnd
  rw [hsorteq]

/-- Every character emitted by `hexDigit` on a nibble is a lowercase
hexadecimal digit. -/
lemma hexDigit_mem (n : Nat) (hn : n < 16) :
    hexDigit n ∈ "0123456789abcdef".data := by
  unfold hexDigit
  interval_cases n <;> decide

/-- Every character of a `bytesHex` encoding is a lowercase hexadecimal
digit. -/
lemma bytesHex_lowercase (bs : List Nat) :
    (bytesHex bs).data.all (fun c => "0123456789abcdef".data.contains c) = true := by
  rw [List.all_eq_true]
  intro c hc
  have hc' : c ∈ bs.flatMap byteToHex := hc
  rcases List.mem_flatMap.mp hc' with ⟨b, _hb, hcb⟩
  have h16a : b % 256 / 16 < 16 := by omega
  have h16b : b % 16 < 16 := by omega
  simp only [byteToHex, List.mem_cons, List.not_mem_nil, or_false] at hcb
  rcases hcb with rfl | rfl
  · exact List.elem_eq_true_of_mem (hexDigit_mem _ h16a)
  · exact List.elem_eq_true_of_mem (hexDigit_mem _ h16b)

/-! Claim theorems. -/

/-- C1, counterexample: the claim says every stored signature is
re-verified with the public key of that event's signer, resolved from
the fingerprint in the event's `by` field.  With a verifier that accepts
only under the key `"key2"`, a sign event by fingerprint `"fp2"` whose
resolver maps `"fp2"` to `"key2"`, and the default key `"key1"`, the
source checker denies (it verified under the single default key
`"key1"`) while the fingerprint-resolving checker described by the claim
admits — so the claim as stated is false of the code. -/
theorem C1_counterexample_fixed_default_key :
    check_existential_rule (fun _ _ k => k == "key2") "key1" ["h"]
      { name := none, min_witnesses := some 1 }
      [{ action := some "sign", by_ := some "fp2",
         artifact_hash := some "h", artifact_signature := some "ab" }] = false
    ∧
    check_existential_rule_resolved (fun _ _ k => k == "key2")
      (fun fp => if fp == some "fp2" then "key2" else "key1") ["h"]
      { name := none, min_witnesses := some 1 }
      [{ action := some "sign", by_ := some "fp2",
         artifact_hash := some "h", artifact_signature := some "ab" }] = true :=
  ⟨rfl, rfl⟩

/-- C1, amended: during policy evaluation every stored signature is
re-verified against the stored artifact hash, but always under the
single default public key returned by `get_public_key()`; the signer
fingerprint in the event's `by` field is never used for key resolution
(equivalently, the source checkers coincide with the spec's
fingerprint-resolving checkers exactly when the resolver is the constant
function returning the default key). -/
theorem C1_verification_uses_single_default_key {K : Type}
    (verify : String → String → K → Bool) (public_key : K)
    (artifact_hashes : List String) (erule : ExistentialRule)
    (urule : UniversalRule) (trule : ThresholdRule) (events : List Event) :
    check_existential_rule verify public_key artifact_hashes erule events =
      check_existential_rule_resolved verify (fun _ => public_key)
        artifact_hashes erule events
    ∧
    check_universal_rule verify public_key artifact_hashes urule events =
      check_universal_rule_resolved verify (fun _ => public_key)
        artifact_hashes urule events
    ∧
    check_threshold_rule verify public_key artifact_hashes trule events =
      check_threshold_rule_resolved verify (fun _ => public_key)
        artifact_hashes trule events :=
  ⟨rfl, rfl, rfl⟩

/-- C2, counterexample: the claim quantifies over every list of target
hashes, but on the empty target list the per-hash loop of
`check_universal_rule` never runs, so a rule requiring the `ledger`
validator returns `true`, not `false`. -/
theorem C2_counterexample_empty_target_list :
    "ledger" ∈ (({ name := none, required_validators := some ["ledger"] } :
        UniversalRule).required_validators.getD [])
    ∧
    check_universal_rule (fun _ _ (_ : Unit) => true) () ([] : List String)
      { name := none, required_validators := some ["ledger"] }
      ([] : List Event) = true :=
  ⟨by simp, rfl⟩

/-- C2, amended: for every NONEMPTY list of target hashes and every
universal rule whose `required_validators` includes `"ledger"`, the
universal-rule check returns deny (`false`), even when every target hash
has a verified signature, because no refutation mechanism is
implemented. -/
theorem C2_ledger_validator_fails_closed {K : Type}
    (verify : String → String → K → Bool) (public_key : K)
    (artifact_hashes : List String) (rule : UniversalRule)
    (events : List Event) (hne : artifact_hashes ≠ [])
    (hledger : "ledger" ∈ rule.required_validators.getD []) :
    check_universal_rule verify public_key artifact_hashes rule events = false := by
  rcases artifact_hashes with _ | ⟨h, hs⟩
  · exact absurd rfl hne
  · have hc : (rule.required_validators.getD []).contains "ledger" = true :=
      List.elem_eq_true_of_mem hledger
    unfold check_universal_rule universalLoop
    cases hb : (rule.required_validators.getD []).contains "signature" &&
        !(signed_artifacts_mem verify public_key events h) <;>
      simp [hb, hc, hledger]

/-- C2, witness for the amended theorem at a concrete input: target list
`["h"]`, a rule requiring `ledger`, one verified sign event. -/
theorem C2_ledger_validator_fails_closed_witness :
    check_universal_rule (fun _ _ (_ : Unit) => true) () ["h"]
      { name := none, required_validators := some ["ledger", "signature"] }
      [{ action := some "sign", by_ := some "fp",
         artifact_hash := some "h", artifact_signature := some "ab" }] = false :=
  C2_ledger_validator_fails_closed (fun _ _ (_ : Unit) => true) () ["h"]
    { name := none, required_validators := some ["ledger", "signature"] }
    [{ action := some "sign", by_ := some "fp",
       artifact_hash := some "h", artifact_signature := some "ab" }]
    (by simp) (by simp)

/-- C3: a threshold rule missing `k`, missing `n`, or with an empty or
absent `attestors` list denies (`false`) for every list of target hashes
and every event history; the malformed rule is never skipped. -/
theorem C3_malformed_threshold_rule_fails_closed {K : Type}
    (verify : String → String → K → Bool) (public_key : K)
    (artifact_hashes : List String) (rule : ThresholdRule)
    (events : List Event)
    (hm : rule.k = none ∨ rule.n = none ∨ rule.attestors.getD [] = []) :
    check_threshold_rule verify public_key artifact_hashes rule events = false :=
  check_threshold_rule_malformed verify public_key artifact_hashes rule events hm

/-- C3, witness: a rule with `k` absent denies on a concrete history that
contains a verified sign event for the (single) target hash. -/
theorem C3_malformed_threshold_rule_fails_closed_witness :
    check_threshold_rule (fun _ _ (_ : Unit) => true) () ["h"]
      { name := none, k := none, n := some 1, attestors := some [some "fp"] }
      [{ action := some "sign", by_ := some "fp",
         artifact_hash := some "h", artifact_signature := some "ab" }] = false :=
  C3_malformed_threshold_rule_fails_closed (fun _ _ (_ : Unit) => true) () ["h"]
    { name := none, k := none, n := some 1, attestors := some [some "fp"] }
    [{ action := some "sign", by_ := some "fp",
       artifact_hash := some "h", artifact_signature := some "ab" }]
    (Or.inl rfl)

/-- C4, counterexample: with the duplicated allowlist `["A", "A"]` and
`k = 2`, attestor `"A"` alone (here with two verified sign events on the
single target hash, but one would suffice) makes the rule pass, although
only 1 distinct allowlisted attestor has a verified signature on the
hash — so attestor `"A"` contributes 2 toward `k`, not 1, and the
claimed pass condition ("at least `k` distinct allowlisted attestors")
fails on the code as stated. -/
theorem C4_counterexample_duplicate_allowlist :
    ({ name := none, k := some 2, n := some 2,
       attestors := some [some "A", some "A"] } : ThresholdRule).k = some 2
    ∧
    check_threshold_rule (fun _ _ (_ : Unit) => true) () ["h"]
      { name := none, k := some 2, n := some 2,
        attestors := some [some "A", some "A"] }
      [{ action := some "sign", by_ := some "A",
         artifact_hash := some "h", artifact_signature := some "ab" },
       { action := some "sign", by_ := some "A",
         artifact_hash := some "h", artifact_signature := some "cd" }] = true
    ∧
    distinct_attestor_count (fun _ _ (_ : Unit) => true) ()
      [some "A", some "A"]
      [{ action := some "sign", by_ := some "A",
         artifact_hash := some "h", artifact_signature := some "ab" },
       { action := some "sign", by_ := some "A",
         artifact_hash := some "h", artifact_signature := some "cd" }] "h" = 1 :=
  ⟨rfl, rfl, rfl⟩

/-- C4, amended: for every well-formed threshold rule whose `attestors`
allowlist contains no duplicate attestor entries, an allowlisted attestor
with multiple verified sign events on the same hash contributes exactly 1
toward `k` and the rule passes for the target set iff every target hash
has at least `k` distinct allowlisted attestors with at least one
verified signature on it (the pass condition is the `List.all` below over
`distinct_attestor_count`, which counts each attestor once). -/
theorem C4_threshold_counts_distinct_attestors {K : Type}
    (verify : String → String → K → Bool) (public_key : K)
    (artifact_hashes : List String) (rule : ThresholdRule)
    (events : List Event) (k n : Int) (hk : rule.k = some k)
    (hn : rule.n = some n) (hne : rule.attestors.getD [] ≠ [])
    (hnd : ((rule.attestors.getD []).filterMap id).Nodup) :
    check_threshold_rule verify public_key artifact_hashes rule events =
      artifact_hashes.all (fun h =>
        decide (k ≤ (distinct_attestor_count verify public_key
          (rule.attestors.getD []) events h : Int))) := by
  obtain ⟨nm, rk, rn, ra⟩ := rule
  simp only at hk hn hne hnd
  subst hk
  subst hn
  unfold check_threshold_rule
  have hemp : (ra.getD []).isEmpty = false := by
    simpa [List.isEmpty_iff] using hne
  simp only [hemp, Bool.false_eq_true, if_false]
  rw [thresholdLoop_eq_all]
  have hpt : ∀ h : String,
      valid_attestations_for_artifact
        (artifact_attestations_count verify public_key (ra.getD []) events)
        (ra.getD []) h =
      distinct_attestor_count verify public_key (ra.getD []) events h := by
    intro h
    rw [valid_attestations_eq_countP, distinct_attestor_count,
      hnd.dedup, List.countP_eq_length_filter]
  simp only [hpt]

/-- C4, witness for the amended theorem: a duplicate-free allowlist
`["A"]` with `k = 1` and one verified signing by `"A"`. -/
theorem C4_threshold_counts_distinct_attestors_witness :
    check_threshold_rule (fun _ _ (_ : Unit) => true) () ["h"]
      { name := none, k := some 1, n := some 1, attestors := some [some "A"] }
      [{ action := some "sign", by_ := some "A",
         artifact_hash := some "h", artifact_signature := some "ab" }] =
      (["h"].all (fun h =>
        decide (1 ≤ (distinct_attestor_count (fun _ _ (_ : Unit) => true) ()
          [some "A"]
          [{ action := some "sign", by_ := some "A",
             artifact_hash := some "h", artifact_signature := some "ab" }]
          h : Int)))) :=
  C4_threshold_counts_distinct_attestors (fun _ _ (_ : Unit) => true) () ["h"]
    { name := none, k := some 1, n := some 1, attestors := some [some "A"] }
    [{ action := some "sign", by_ := some "A",
       artifact_hash := some "h", artifact_signature := some "ab" }]
    1 1 rfl rfl (by simp) (by simp)

/-- C5: a sign event whose stored signature does not verify (under the
evaluation key) against its stored artifact hash contributes 0 to the
witness count of every hash, is absent from the signed set used by
universal rules, and contributes 0 to every threshold attestation count:
removing it from any position of the (unmodified, read-only) event list
changes none of the three quantities. -/
theorem C5_tampered_event_contributes_zero {K : Type}
    (verify : String → String → K → Bool) (public_key : K) (e : Event)
    (l₁ l₂ : List Event) (attestors : List (Option String)) (h a : String)
    (_hsign : e.action = some "sign")
    (_hhash : truthyStr e.artifact_hash = true)
    (_hsig : truthyStr e.artifact_signature = true)
    (hfail : verify (e.artifact_signature.getD "") (e.artifact_hash.getD "")
      public_key = false) :
    artifact_signatures_count verify public_key (l₁ ++ e :: l₂) h =
      artifact_signatures_count verify public_key (l₁ ++ l₂) h
    ∧ signed_artifacts_mem verify public_key (l₁ ++ e :: l₂) h =
      signed_artifacts_mem verify public_key (l₁ ++ l₂) h
    ∧ artifact_attestations_count verify public_key attestors (l₁ ++ e :: l₂) h a =
      artifact_attestations_count verify public_key attestors (l₁ ++ l₂) h a := by
  have hw : eventCountsAsWitness verify public_key e = false := by
    simp [eventCountsAsWitness, hfail]
  have hat : eventCountsAsAttestation verify public_key attestors e = false := by
    simp [eventCountsAsAttestation, hfail]
  exact ⟨signatures_count_erase verify public_key e hw l₁ l₂ h,
    signed_mem_erase verify public_key e hw l₁ l₂ h,
    attestations_count_erase verify public_key attestors e hat l₁ l₂ h a⟩

/-- C5, witness: a tampered sign event (the verifier rejects everything)
surrounded by an empty prefix and a one-event suffix leaves all three
counts unchanged at concrete arguments. -/
theorem C5_tampered_event_contributes_zero_witness :
    artifact_signatures_count (fun _ _ (_ : Unit) => false) ()
      ([] ++ ({ action := some "sign", by_ := some "A",
                artifact_hash := some "h", artifact_signature := some "ab" } : Event) ::
        [{ action := some "capture", by_ := some "A",
           artifact_hash := some "h", artifact_signature := none }]) "h" =
      artifact_signatures_count (fun _ _ (_ : Unit) => false) ()
        ([] ++ [{ action := some "capture", by_ := some "A",
                  artifact_hash := some "h", artifact_signature := none }]) "h"
    ∧ signed_artifacts_mem (fun _ _ (_ : Unit) => false) ()
      ([] ++ ({ action := some "sign", by_ := some "A",
                artifact_hash := some "h", artifact_signature := some "ab" } : Event) ::
        [{ action := some "capture", by_ := some "A",
           artifact_hash := some "h", artifact_signature := none }]) "h" =
      signed_artifacts_mem (fun _ _ (_ : Unit) => false) ()
        ([] ++ [{ action := some "capture", by_ := some "A",
                  artifact_hash := some "h", artifact_signature := none }]) "h"
    ∧ artifact_attestations_count (fun _ _ (_ : Unit) => false) () [some "A"]
      ([] ++ ({ action := some "sign", by_ := some "A",
                artifact_hash := some "h", artifact_signature := some "ab" } : Event) ::
        [{ action := some "capture", by_ := some "A",
           artifact_hash := some "h", artifact_signature := none }]) "h" "A" =
      artifact_attestations_count (fun _ _ (_ : Unit) => false) () [some "A"]
        ([] ++ [{ action := some "capture", by_ := some "A",
                  artifact_hash := some "h", artifact_signature := none }]) "h" "A" :=
  C5_tampered_event_contributes_zero (fun _ _ (_ : Unit) => false) ()
    { action := some "sign", by_ := some "A",
      artifact_hash := some "h", artifact_signature := some "ab" }
    [] [{ action := some "capture", by_ := some "A",
          artifact_hash := some "h", artifact_signature := none }]
    [some "A"] "h" "A" rfl rfl rfl rfl

/-- C6: for every target list and existential rule (with its
`min_witnesses` field present and equal to `m`), the check passes iff
every target hash has at least `m` verified sign events (distinct
signers not required), and with no policy file configured `can_export`
evaluates exactly one existential rule with `min_witnesses = 1` and no
universal or threshold rules. -/
theorem C6_existential_rule_and_default_policy {K : Type}
    (verify : String → String → K → Bool) (public_key : K)
    (artifact_hashes : List String) (rule : ExistentialRule)
    (events : List Event) (m : Int) (hm : rule.min_witnesses = some m) :
    (check_existential_rule verify public_key artifact_hashes rule events =
      artifact_hashes.all (fun h =>
        decide (m ≤ (artifact_signatures_count verify public_key events h : Int))))
    ∧ load_policy_config none = default_policy
    ∧ default_policy.existential_rules =
        [{ name := some "default_export_policy", min_witnesses := some 1 }]
    ∧ default_policy.universal_rules = []
    ∧ default_policy.threshold_rules = []
    ∧ can_export verify public_key artifact_hashes none events =
        check_existential_rule verify public_key artifact_hashes
          { name := some "default_export_policy", min_witnesses := some 1 }
          events := by
  refine ⟨?_, rfl, rfl, rfl, rfl, ?_⟩
  · simp only [check_existential_rule, hm, Option.getD_some]
    exact existentialLoop_eq_all m _ artifact_hashes
  · simp [can_export, load_policy_config, default_policy]

/-- C6, witness: concrete instantiation with one verified sign event on
the single target hash and the default rule. -/
theorem C6_existential_rule_and_default_policy_witness :
    (check_existential_rule (fun _ _ (_ : Unit) => true) () ["h"]
      { name := some "default_export_policy", min_witnesses := some 1 }
      [{ action := some "sign", by_ := some "A",
         artifact_hash := some "h", artifact_signature := some "ab" }] =
      ["h"].all (fun h =>
        decide ((1 : Int) ≤ (artifact_signatures_count
          (fun _ _ (_ : Unit) => true) ()
          [{ action := some "sign", by_ := some "A",
             artifact_hash := some "h", artifact_signature := some "ab" }]
          h : Int))))
    ∧ load_policy_config none = default_policy
    ∧ default_policy.existential_rules =
        [{ name := some "default_export_policy", min_witnesses := some 1 }]
    ∧ default_policy.universal_rules = []
    ∧ default_policy.threshold_rules = []
    ∧ can_export (fun _ _ (_ : Unit) => true) () ["h"] none
        [{ action := some "sign", by_ := some "A",
           artifact_hash := some "h", artifact_signature := some "ab" }] =
        check_existential_rule (fun _ _ (_ : Unit) => true) () ["h"]
          { name := some "default_export_policy", min_witnesses := some 1 }
          [{ action := some "sign", by_ := some "A",
             artifact_hash := some "h", artifact_signature := some "ab" }] :=
  C6_existential_rule_and_default_policy (fun _ _ (_ : Unit) => true) () ["h"]
    { name := some "default_export_policy", min_witnesses := some 1 }
    [{ action := some "sign", by_ := some "A",
       artifact_hash := some "h", artifact_signature := some "ab" }]
    1 rfl

/-- C10: an existential rule with `min_witnesses` absent is evaluated
with the default 1 rather than failing closed — the check passes exactly
when every target hash has at least one verified sign event — whereas a
threshold rule missing `k` always denies, so the malformed existential
rule is more permissive than the malformed threshold rule. -/
theorem C10_missing_min_witnesses_defaults_to_one {K : Type}
    (verify : String → String → K → Bool) (public_key : K)
    (artifact_hashes : List String) (events : List Event)
    (rule : ExistentialRule) (hnone : rule.min_witnesses = none)
    (trule : ThresholdRule) (htk : trule.k = none) :
    (check_existential_rule verify public_key artifact_hashes rule events =
      artifact_hashes.all (fun h =>
        decide (0 < artifact_signatures_count verify public_key events h)))
    ∧ check_threshold_rule verify public_key artifact_hashes trule events =
        false := by
  constructor
  · simp only [check_existential_rule, hnone, Option.getD_none]
    rw [existentialLoop_eq_all]
    have hpt : ∀ h : String,
        decide ((1 : Int) ≤ (artifact_signatures_count verify public_key events h : Int)) =
          decide (0 < artifact_signatures_count verify public_key events h) :=
      fun h => decide_eq_decide.mpr (by omega)
    simp only [hpt]
  · exact check_threshold_rule_malformed verify public_key artifact_hashes
      trule events (Or.inl htk)

/-- C10, witness: a rule with no `min_witnesses` admits a hash with one
verified sign event, while a threshold rule with no `k` denies it. -/
theorem C10_missing_min_witnesses_defaults_to_one_witness :
    (check_existential_rule (fun _ _ (_ : Unit) => true) () ["h"]
      { name := none, min_witnesses := none }
      [{ action := some "sign", by_ := some "A",
         artifact_hash := some "h", artifact_signature := some "ab" }] =
      ["h"].all (fun h =>
        decide (0 < artifact_signatures_count (fun _ _ (_ : Unit) => true) ()
          [{ action := some "sign", by_ := some "A",
             artifact_hash := some "h", artifact_signature := some "ab" }] h)))
    ∧ check_threshold_rule (fun _ _ (_ : Unit) => true) () ["h"]
        { name := none, k := none, n := some 1, attestors := some [some "A"] }
        [{ action := some "sign", by_ := some "A",
           artifact_hash := some "h", artifact_signature := some "ab" }] =
        false :=
  C10_missing_min_witnesses_defaults_to_one (fun _ _ (_ : Unit) => true) ()
    ["h"]
    [{ action := some "sign", by_ := some "A",
       artifact_hash := some "h", artifact_signature := some "ab" }]
    { name := none, min_witnesses := none } rfl
    { name := none, k := none, n := some 1, attestors := some [some "A"] } rfl

/-- C7: serializing the same logical assertion fields always yields
byte-identical output — `dumpsSorted` is invariant under any reordering
of the (duplicate-key-free) items — and `create_assertion` produces the
canonical JSON with the keys in sorted order
(`alg`, `hash`, `signature`, `signer`) joined by the fixed separators
`","` and `":"` with no whitespace. -/
theorem C7_assertion_serialization_deterministic
    (items₁ items₂ : List (String × String)) (hperm : items₁.Perm items₂)
    (hnd : (items₁.map Prod.fst).Nodup) (is_ec : Bool) (h s g : String) :
    dumpsSorted items₁ = dumpsSorted items₂
    ∧ create_assertion is_ec h s g =
        "\x7b" ++ String.intercalate ","
          ["\"alg\":" ++ jsonQuote (if is_ec then "ES384" else "PS256"),
           "\"hash\":" ++ jsonQuote h,
           "\"signature\":" ++ jsonQuote s,
           "\"signer\":" ++ jsonQuote g] ++ "\x7d" :=
  ⟨dumpsSorted_perm_eq items₁ items₂ hperm hnd, rfl⟩

/-- C7, witness: two orderings of the same two fields serialize to the
same bytes, and a concrete assertion takes the canonical form. -/
theorem C7_assertion_serialization_deterministic_witness :
    dumpsSorted [("b", "1"), ("a", "2")] = dumpsSorted [("a", "2"), ("b", "1")]
    ∧ create_assertion true "h1" "s1" "sha256:f1" =
        "\x7b" ++ String.intercalate ","
          ["\"alg\":" ++ jsonQuote (if true then "ES384" else "PS256"),
           "\"hash\":" ++ jsonQuote "h1",
           "\"signature\":" ++ jsonQuote "s1",
           "\"signer\":" ++ jsonQuote "sha256:f1"] ++ "\x7d" :=
  C7_assertion_serialization_deterministic [("b", "1"), ("a", "2")]
    [("a", "2"), ("b", "1")] (by decide) (by decide) true "h1" "s1" "sha256:f1"

/-- C8: for any key material, the fingerprint produced by the file
backend equals `"sha256:"` followed by the hex encoding of the SHA-256
digest of the DER-encoded `SubjectPublicKeyInfo` bytes, the provenance
module and the TPM backend compute the identical value from the same
public key bytes, and every character of the hex part is a lowercase
hexadecimal digit.  All three embeddings are pure functions of the DER
bytes, so repeated calls agree by construction. -/
theorem C8_fingerprint_content_derived (sha256 : List Nat → List Nat)
    (der_bytes : List Nat) :
    FileKeyBackend.calculate_fingerprint_from_public_key sha256 der_bytes =
      "sha256:" ++ bytesHex (sha256 der_bytes)
    ∧ get_public_key_fingerprint sha256 der_bytes =
        FileKeyBackend.calculate_fingerprint_from_public_key sha256 der_bytes
    ∧ TpmKeyBackend.calculate_fingerprint_from_public_key sha256 der_bytes =
        FileKeyBackend.calculate_fingerprint_from_public_key sha256 der_bytes
    ∧ (bytesHex (sha256 der_bytes)).data.all
        (fun c => "0123456789abcdef".data.contains c) = true :=
  ⟨rfl, rfl, rfl, bytesHex_lowercase (sha256 der_bytes)⟩

/-- C9, counterexample: the claim says `delete_key` is an idempotent
no-op on an already-absent key, so a second call with the key_id issued
by the instance should succeed.  On the file backend, generating the
(single) keypair issues a key id, the first `delete_key` succeeds and
clears `_key_id`, and the second call with the very same key_id raises
`ValueError` — it does not succeed. -/
theorem C9_counterexample_second_delete_raises :
    (FileKeyBackend.generate_key_pair (fun _ => [0]) ⟨[1]⟩
        FileKeyBackend.initialState).1 = "sha256:00"
    ∧ FileKeyBackend.delete_key
        (FileKeyBackend.generate_key_pair (fun _ => [0]) ⟨[1]⟩
          FileKeyBackend.initialState).2 "sha256:00" =
        Except.ok FileKeyBackend.initialState
    ∧ FileKeyBackend.delete_key FileKeyBackend.initialState "sha256:00" =
        Except.error
          "Key with ID sha256:00 not managed by this FileKeyBackend instance." :=
  ⟨rfl, rfl, rfl⟩

/-- C9, amended: `delete_key` succeeds exactly when the given key_id
equals the cached `_key_id` — deleting a second time with the same
key_id (or with any key_id on a cleared instance, or whenever the cached
id differs) raises `ValueError` rather than being an idempotent no-op —
and after a successful deletion the file backend lazily regenerates a
fresh keypair, with its fingerprint as the new key id, on next use. -/
theorem C9_delete_key_not_idempotent (sha256 : List Nat → List Nat)
    (fresh : PrivateKey) (s : FileBackendState) (key_id : String)
    (hid : s.mem_key_id = some key_id)
    (s' : FileBackendState) (hmiss : s'.mem_key_id ≠ some key_id) :
    FileKeyBackend.delete_key s key_id = Except.ok FileKeyBackend.initialState
    ∧ FileKeyBackend.delete_key FileKeyBackend.initialState key_id =
        Except.error ("Key with ID " ++ key_id ++
          " not managed by this FileKeyBackend instance.")
    ∧ FileKeyBackend.delete_key s' key_id =
        Except.error ("Key with ID " ++ key_id ++
          " not managed by this FileKeyBackend instance.")
    ∧ (FileKeyBackend.load_or_generate_keypair sha256 fresh
        FileKeyBackend.initialState).1 = fresh
    ∧ (FileKeyBackend.load_or_generate_keypair sha256 fresh
        FileKeyBackend.initialState).2.mem_key_id =
        some (FileKeyBackend.calculate_fingerprint_from_public_key sha256
          fresh.pubDer) := by
  refine ⟨?_, ?_, ?_, rfl, rfl⟩
  · simp [FileKeyBackend.delete_key, hid, FileKeyBackend.initialState]
  · simp [FileKeyBackend.delete_key, FileKeyBackend.initialState]
  · simp [FileKeyBackend.delete_key, hmiss]

/-- C9, witness: a backend holding the key with id `"sha256:00"` deletes
it once successfully; the cleared instance (here the second state) then
rejects the same id, and regeneration on the cleared state produces the
fresh key. -/
theorem C9_delete_key_not_idempotent_witness :
    FileKeyBackend.delete_key
      { keyFileOnDisk := some ⟨[1]⟩, pubFileOnDisk := some [1],
        mem_private_key := some ⟨[1]⟩, mem_public_key := none,
        mem_key_id := some "sha256:00" } "sha256:00" =
      Except.ok FileKeyBackend.initialState
    ∧ FileKeyBackend.delete_key FileKeyBackend.initialState "sha256:00" =
        Except.error ("Key with ID " ++ "sha256:00" ++
          " not managed by this FileKeyBackend instance.")
    ∧ FileKeyBackend.delete_key FileKeyBackend.initialState "sha256:00" =
        Except.error ("Key with ID " ++ "sha256:00" ++
          " not managed by this FileKeyBackend instance.")
    ∧ (FileKeyBackend.load_or_generate_keypair (fun _ => [0]) ⟨[2]⟩
        FileKeyBackend.initialState).1 = (⟨[2]⟩ : PrivateKey)
    ∧ (FileKeyBackend.load_or_generate_keypair (fun _ => [0]) ⟨[2]⟩
        FileKeyBackend.initialState).2.mem_key_id =
        some (FileKeyBackend.calculate_fingerprint_from_public_key
          (fun _ => [0]) (⟨[2]⟩ : PrivateKey).pubDer) :=
  C9_delete_key_not_idempotent (fun _ => [0]) ⟨[2]⟩
    { keyFileOnDisk := some ⟨[1]⟩, pubFileOnDisk := some [1],
      mem_private_key := some ⟨[1]⟩, mem_public_key := none,
      mem_key_id := some "sha256:00" } "sha256:00" rfl
    FileKeyBackend.initialState (by decide)

end Kairoscope
